import Mathlib

/-!
Verification of the genesis_seed node agent against its specification.

This file is a shallow embedding of the reconciliation core of the
genesis_seed repository:

* the data model (`Interface`, `Machine`, `Node`, `Payload`) from
  `genesis_seed/dm/models.py`, including the payload content hash
  (`Payload._calculate_payload_hash`, a SHA-256 over a JSON rendering of a
  fixed field subset, implemented here in full so digests are computable);
* the streaming download engine (`stream_to_file` with the plain and gzip
  chunk handlers) from `genesis_seed/common/http/base.py`;
* the root-partition probing (`mount_root_partition`) from
  `genesis_seed/common/utils.py`;
* the agent service (`_set_status`, `_set_error_status`,
  `_set_in_progress_status`, `_actualize_machine`, `_place_node`,
  `_actualize_node`, `_actualize_agent`, `_iteration`) from
  `genesis_seed/services/agent.py` and the payload persistence
  (`CoreAgent.collect_payload`, `CoreAgent.save_payload`) from
  `genesis_seed/dm/models.py`.

Side effects (HTTP mutations, block-device writes, file writes) are
modelled as an explicit event trace (`Eff`); Python exceptions are
modelled with `Except` over the `PyErr` type.  Machine integers do not
occur; Python ints are unbounded and map to `Nat`.  Python string hashes
(`hash(str)`) used by `Payload.__eq__` and `Interface.__eq__` are
modelled as equality of the hashed strings / field tuples themselves
(Python hash equality coincides with it except for hash collisions).

External collaborators are modelled at their interface, as the spec
prescribes: the HTTP response is a declared Content-Length plus the list
of successive chunk sizes `response.read` yields, and the zlib
incremental decompressor is a state machine whose `eof` flag is set
exactly once the complete gzip member (header, deflate body and trailer)
has been consumed, per the zlib contract used by `GZChunkHandler`.
-/

deriving instance DecidableEq for Except

namespace GenesisSeed

/-- Python exceptions that the embedded code can raise.  `attributeError`
models an access to a missing attribute (e.g. `self.written` in
`BaseChunkHandler.is_clean`, or an enum member that does not exist);
`typeError` models calling a function with the wrong number of
arguments. -/
inductive PyErr where
  | typeError
  | attributeError
  | valueError (msg : String)
  | downloadMismatch (expected got : Nat)
  | downloadDecompress
  | noAcceptableBlockDevice
  deriving DecidableEq

/-- Observed NIC fact, from `models.Interface` (fields `name`, `mac`,
`ipv4`, `mask`, `mtu`; `ipv4`/`mask` are `None` when the interface has no
IPv4 address, hence `Option`; the dotted-quad text of `IPv4Address` is
kept as the string itself).  `Interface.__eq__` hashes the full field
tuple, so Python equality is structural equality over all five fields,
which is exactly the derived `DecidableEq`. -/
structure Interface where
  name : String
  mac : String
  ipv4 : Option String
  mask : Option String
  mtu : Nat
  deriving DecidableEq

/-- Compute resource, from `models.Machine` (UUIDs kept as canonical
strings). -/
structure Machine where
  uuid : String
  cores : Nat
  ram : Nat
  status : String
  machine_type : String
  boot : String
  pool : Option String := none
  project_id : String := "00000000-0000-0000-0000-000000000000"
  node : Option String := none
  firmware_uuid : Option String := none
  name : String := ""
  description : String := ""
  image : Option String := none
  deriving DecidableEq

/-- Logical workload descriptor, from `models.Node`. -/
structure Node where
  uuid : String
  cores : Nat
  ram : Nat
  status : String
  image : String
  node_type : String
  project_id : String := "00000000-0000-0000-0000-000000000000"
  name : String := ""
  description : String := ""
  deriving DecidableEq

/-- Unit of state exchanged between control plane and data plane, from
`models.Payload`. -/
structure Payload where
  machine : Option Machine := none
  node : Option Node := none
  interfaces : List Interface := []
  payload_hash : String := ""
  payload_updated_at : String := "1970-01-01T00:01:00+00:00"
  deriving DecidableEq

/-- Members of `constants.MachineStatus`, in declaration order.  The enum
in `genesis_seed/common/constants.py` has exactly these seven members. -/
def MachineStatus.values : List String :=
  ["NEW", "SCHEDULED", "IN_PROGRESS", "STARTED", "ACTIVE", "IDLE", "ERROR"]

/-- Members of `constants.NodeStatus`, in declaration order. -/
def NodeStatus.values : List String :=
  ["NEW", "SCHEDULED", "IN_PROGRESS", "STARTED", "ACTIVE", "ERROR"]

/-- Attribute access `constants.MachineStatus.<name>`: yields the member
value when the enum defines it, and raises `AttributeError` otherwise. -/
def MachineStatus.attr (s : String) : Except PyErr String :=
  if s ∈ MachineStatus.values then .ok s else .error .attributeError

/-- The status value the guest capability driver writes after flashing:
`GuestCapDriver.run` reads `c.MachineStatus.FLASHED.value`
(`genesis_seed/drivers/guest.py`, line 173). -/
def GuestCapDriver.flashedStatus : Except PyErr String :=
  MachineStatus.attr "FLASHED"

end GenesisSeed

namespace GenesisSeed.SHA256

/-- Reduce modulo 2^32; every 32-bit word operation is followed by it. -/
def mod32 (x : Nat) : Nat := x % 4294967296

/-- Rotate a 32-bit word right by `n` bits. -/
def rotr (n x : Nat) : Nat := mod32 ((x >>> n) ||| (x <<< (32 - n)))

def ch (x y z : Nat) : Nat := (x &&& y) ^^^ ((x ^^^ 4294967295) &&& z)

def maj (x y z : Nat) : Nat := (x &&& y) ^^^ (x &&& z) ^^^ (y &&& z)

def bigSigma0 (x : Nat) : Nat := rotr 2 x ^^^ rotr 13 x ^^^ rotr 22 x

def bigSigma1 (x : Nat) : Nat := rotr 6 x ^^^ rotr 11 x ^^^ rotr 25 x

def smallSigma0 (x : Nat) : Nat := rotr 7 x ^^^ rotr 18 x ^^^ (x >>> 3)

def smallSigma1 (x : Nat) : Nat := rotr 17 x ^^^ rotr 19 x ^^^ (x >>> 10)

/-- The 64 SHA-256 round constants, in decimal. -/
def K : List Nat :=
  [1116352408, 1899447441, 3049323471, 3921009573,
   961987163, 1508970993, 2453635748, 2870763221,
   3624381080, 310598401, 607225278, 1426881987,
   1925078388, 2162078206, 2614888103, 3248222580,
   3835390401, 4022224774, 264347078, 604807628,
   770255983, 1249150122, 1555081692, 1996064986,
   2554220882, 2821834349, 2952996808, 3210313671,
   3336571891, 3584528711, 113926993, 338241895,
   666307205, 773529912, 1294757372, 1396182291,
   1695183700, 1986661051, 2177026350, 2456956037,
   2730485921, 2820302411, 3259730800, 3345764771,
   3516065817, 3600352804, 4094571909, 275423344,
   430227734, 506948616, 659060556, 883997877,
   958139571, 1322822218, 1537002063, 1747873779,
   1955562222, 2024104815, 2227730452, 2361852424,
   2428436474, 2756734187, 3204031479, 3329325298]

/-- Big-endian byte rendering of `n` on `k` bytes. -/
def beBytes : Nat → Nat → List Nat
  | 0, _ => []
  | k + 1, n => beBytes k (n / 256) ++ [n % 256]

/-- SHA-256 padding: append `0x80`, zeros up to 56 mod 64, then the bit
length on 8 big-endian bytes. -/
def padBytes (msg : List Nat) : List Nat :=
  let L := msg.length
  let zeros := (120 - (L + 1) % 64) % 64
  msg ++ 0x80 :: List.replicate zeros 0 ++ beBytes 8 (8 * L)

/-- Group bytes into big-endian 32-bit words. -/
def toWords : List Nat → List Nat
  | a :: b :: c :: d :: rest =>
      (((a * 256 + b) * 256 + c) * 256 + d) :: toWords rest
  | _ => []

def toBlocksAux : Nat → List Nat → List (List Nat)
  | 0, _ => []
  | _, [] => []
  | fuel + 1, ws => ws.take 16 :: toBlocksAux fuel (ws.drop 16)

/-- Group words into 16-word blocks. -/
def toBlocks (ws : List Nat) : List (List Nat) := toBlocksAux ws.length ws

/-- Message-schedule extension; `acc` holds the schedule so far, newest
word first. -/
def extendSchedule : Nat → List Nat → List Nat
  | 0, acc => acc.reverse
  | n + 1, acc =>
      let w : Nat := mod32 (smallSigma1 (acc.getD 1 0) + acc.getD 6 0 +
        smallSigma0 (acc.getD 14 0) + acc.getD 15 0)
      extendSchedule n (w :: acc)

/-- The 64-word message schedule of one block. -/
def schedule (block : List Nat) : List Nat := extendSchedule 48 block.reverse

/-- The eight 32-bit working variables. -/
structure Hs where
  a : Nat
  b : Nat
  c : Nat
  d : Nat
  e : Nat
  f : Nat
  g : Nat
  h : Nat
  deriving DecidableEq

def initHs : Hs :=
  { a := 1779033703, b := 3144134277, c := 1013904242, d := 2773480762,
    e := 1359893119, f := 2600822924, g := 528734635, h := 1541459225 }

def round (st : Hs) (k w : Nat) : Hs :=
  let t1 := mod32 (st.h + bigSigma1 st.e + ch st.e st.f st.g + k + w)
  let t2 := mod32 (bigSigma0 st.a + maj st.a st.b st.c)
  { a := mod32 (t1 + t2), b := st.a, c := st.b, d := st.c,
    e := mod32 (st.d + t1), f := st.e, g := st.f, h := st.g }

def rounds : List Nat → List Nat → Hs → Hs
  | k :: ks, w :: ws, st => rounds ks ws (round st k w)
  | _, _, st => st

def compress (st : Hs) (block : List Nat) : Hs :=
  let fin := rounds K (schedule block) st
  { a := mod32 (st.a + fin.a), b := mod32 (st.b + fin.b),
    c := mod32 (st.c + fin.c), d := mod32 (st.d + fin.d),
    e := mod32 (st.e + fin.e), f := mod32 (st.f + fin.f),
    g := mod32 (st.g + fin.g), h := mod32 (st.h + fin.h) }

def digestWords (msg : List Nat) : List Nat :=
  let st := (toBlocks (toWords (padBytes msg))).foldl compress initHs
  [st.a, st.b, st.c, st.d, st.e, st.f, st.g, st.h]

def hexDigit (n : Nat) : Char :=
  if n < 10 then Char.ofNat (48 + n) else Char.ofNat (87 + n)

def wordHex (w : Nat) : List Char :=
  [hexDigit (w / 0x10000000 % 16), hexDigit (w / 0x1000000 % 16),
   hexDigit (w / 0x100000 % 16), hexDigit (w / 0x10000 % 16),
   hexDigit (w / 0x1000 % 16), hexDigit (w / 0x100 % 16),
   hexDigit (w / 0x10 % 16), hexDigit (w % 16)]

/-- Lowercase hex digest of a byte message, as `hashlib.sha256(...).hexdigest()`
renders it. -/
def sha256hexBytes (msg : List Nat) : String :=
  String.mk ((digestWords msg).flatMap wordHex)

/-- UTF-8 bytes of one character (the `.encode("utf-8")` step). -/
def utf8Bytes (c : Char) : List Nat :=
  let n := c.toNat
  if n < 0x80 then [n]
  else if n < 0x800 then [0xc0 + n / 64, 0x80 + n % 64]
  else if n < 0x10000 then
    [0xe0 + n / 4096, 0x80 + n / 64 % 64, 0x80 + n % 64]
  else
    [0xf0 + n / 262144, 0x80 + n / 4096 % 64, 0x80 + n / 64 % 64,
     0x80 + n % 64]

def strBytes (s : String) : List Nat := s.toList.flatMap utf8Bytes

/-- Hex SHA-256 digest of the UTF-8 encoding of a string. -/
def sha256hex (s : String) : String := sha256hexBytes (strBytes s)

end GenesisSeed.SHA256

set_option maxRecDepth 10000 in
example :
    GenesisSeed.SHA256.sha256hex "abc" =
      "ba7816bf8f01cfea414140de5dae2223b00361a396177a9cb410ff61f20015ad" := by
  decide

namespace GenesisSeed

/-- Four lowercase hex digits, for the `\uXXXX` escapes `json.dumps`
emits with its default `ensure_ascii=True`. -/
def hex4 (n : Nat) : List Char :=
  [SHA256.hexDigit (n / 4096 % 16), SHA256.hexDigit (n / 256 % 16),
   SHA256.hexDigit (n / 16 % 16), SHA256.hexDigit (n % 16)]

/-- Escaping of one character inside a JSON string literal, as CPython's
`json.dumps` (ASCII mode) performs it: the two-character shorthands for
quote, backslash and the C0 controls with names, `\uXXXX` for the other
characters below 0x20 or above 0x7e, surrogate pairs above 0xffff. -/
def jsonEscapeChar (c : Char) : List Char :=
  if c = Char.ofNat 34 then [Char.ofNat 92, Char.ofNat 34]
  else if c = Char.ofNat 92 then [Char.ofNat 92, Char.ofNat 92]
  else if c = Char.ofNat 10 then [Char.ofNat 92, Char.ofNat 110]
  else if c = Char.ofNat 13 then [Char.ofNat 92, Char.ofNat 114]
  else if c = Char.ofNat 9 then [Char.ofNat 92, Char.ofNat 116]
  else if c = Char.ofNat 8 then [Char.ofNat 92, Char.ofNat 98]
  else if c = Char.ofNat 12 then [Char.ofNat 92, Char.ofNat 102]
  else if c.toNat < 0x20 ∨ (0x7e < c.toNat ∧ c.toNat < 0x10000) then
    Char.ofNat 92 :: Char.ofNat 117 :: hex4 c.toNat
  else if 0xffff < c.toNat then
    let m := c.toNat - 0x10000
    Char.ofNat 92 :: Char.ofNat 117 :: hex4 (0xd800 + m / 0x400) ++
      Char.ofNat 92 :: Char.ofNat 117 :: hex4 (0xdc00 + m % 0x400)
  else [c]

/-- A JSON string literal for `s` (double-quoted, escaped). -/
def jsonStrLit (s : String) : String :=
  String.mk (Char.ofNat 34 :: s.toList.flatMap jsonEscapeChar ++ [Char.ofNat 34])

/-- JSON rendering of a nullable string (`json.dumps` turns `None` into
`null`). -/
def jsonOptStrLit : Option String → String
  | none => "null"
  | some s => jsonStrLit s

/-- Python `repr` of a text string: single-quoted unless the string
contains a single quote and no double quote; backslash, the quote and the
C0 controls escaped.  Printable characters above 0x7f pass through, as
CPython keeps them; the strings this repository hashes are ASCII. -/
def pyReprStr (s : String) : String :=
  let sq := Char.ofNat 39
  let dq := Char.ofNat 34
  let bs := Char.ofNat 92
  let q := if s.toList.contains sq ∧ ¬ s.toList.contains dq then dq else sq
  let esc := fun (c : Char) =>
    if c = bs then [bs, bs]
    else if c = q then [bs, q]
    else if c = Char.ofNat 10 then [bs, Char.ofNat 110]
    else if c = Char.ofNat 13 then [bs, Char.ofNat 114]
    else if c = Char.ofNat 9 then [bs, Char.ofNat 116]
    else if c.toNat < 0x20 ∨ c.toNat = 0x7f then
      [bs, Char.ofNat 120, SHA256.hexDigit (c.toNat / 16), SHA256.hexDigit (c.toNat % 16)]
    else [c]
  String.mk (q :: s.toList.flatMap esc ++ [q])

/-- Python `repr` of a `uuid.UUID`: the canonical string wrapped in
`UUID('...')`. -/
def uuidRepr (u : String) : String := "UUID(\x27" ++ u ++ "\x27)"

/-- Python `str` of a `models.Node` value: the dataclass-generated repr,
fields in declaration order, each rendered with `repr`. -/
def Node.pyRepr (nd : Node) : String :=
  "Node(uuid=" ++ uuidRepr nd.uuid ++
  ", cores=" ++ toString nd.cores ++
  ", ram=" ++ toString nd.ram ++
  ", status=" ++ pyReprStr nd.status ++
  ", image=" ++ pyReprStr nd.image ++
  ", node_type=" ++ pyReprStr nd.node_type ++
  ", project_id=" ++ uuidRepr nd.project_id ++
  ", name=" ++ pyReprStr nd.name ++
  ", description=" ++ pyReprStr nd.description ++ ")"

/-- Python `str(self.node)` in `_calculate_payload_hash`: `"None"` when
the payload carries no node, the dataclass repr otherwise. -/
def optNodeStr : Option Node → String
  | none => "None"
  | some nd => nd.pyRepr

/-- Python `str` applied to a possibly absent `IPv4Address` (`"None"` for
`None`, the dotted quad otherwise). -/
def ipStr : Option String → String
  | none => "None"
  | some s => s

/-- The fields of one interface that `_calculate_payload_hash` reads:
`mac`, `str(ipv4)` and `str(mask)`. -/
def Interface.hashProj (i : Interface) : String × String × String :=
  (i.mac, ipStr i.ipv4, ipStr i.mask)

/-- JSON object for one interface inside the hash input (keys sorted:
`ipv4`, `mac`, `mask`). -/
def ifaceHashObj (t : String × String × String) : String :=
  "\x7b\"ipv4\":" ++ jsonStrLit t.2.1 ++ ",\"mac\":" ++ jsonStrLit t.1 ++
    ",\"mask\":" ++ jsonStrLit t.2.2 ++ "\x7d"

/-- JSON object for the machine inside the hash input: only
`machine.image` and `str(payload.node)` (keys sorted: `image`, `node`). -/
def machineHashObj (img : Option String) (nodeStr : String) : String :=
  "\x7b\"image\":" ++ jsonOptStrLit img ++ ",\"node\":" ++ jsonStrLit nodeStr ++ "\x7d"

/-- JSON object for the node inside the hash input: `cores`, `ram`,
`node_type`, `image` (keys sorted: `cores`, `image`, `node_type`, `ram`). -/
def nodeHashObj (nd : Node) : String :=
  "\x7b\"cores\":" ++ toString nd.cores ++ ",\"image\":" ++ jsonStrLit nd.image ++
    ",\"node_type\":" ++ jsonStrLit nd.node_type ++ ",\"ram\":" ++ toString nd.ram ++ "\x7d"

/-- The serialized dictionary `_calculate_payload_hash` feeds to SHA-256,
as a function of exactly the data the code reads: machine presence and
`machine.image`, the full payload node (through `str(self.node)` inside
the machine entry and through `cores`/`ram`/`node_type`/`image` in the
node entry), and each interface's `(mac, str(ipv4), str(mask))`.  Top
level keys in sorted order: `interfaces`, `machine`, `node`; entries are
present under the same conditions as in the code (`machine`/`node` not
`None`, interface list non-empty); `json.dumps` separators `(",", ":")`. -/
def hashInputCore (mImg : Option (Option String)) (nd : Option Node)
    (ifs : List (String × String × String)) : String :=
  let fields :=
    (if ifs.isEmpty then []
     else ["\"interfaces\":[" ++ String.intercalate "," (ifs.map ifaceHashObj) ++ "]"]) ++
    (match mImg with
     | none => []
     | some img => ["\"machine\":" ++ machineHashObj img (optNodeStr nd)]) ++
    (match nd with
     | none => []
     | some n => ["\"node\":" ++ nodeHashObj n])
  "\x7b" ++ String.intercalate "," fields ++ "\x7d"

/-- The JSON text hashed by `Payload._calculate_payload_hash`. -/
def Payload.hashInput (p : Payload) : String :=
  hashInputCore (p.machine.map (·.image)) p.node (p.interfaces.map Interface.hashProj)

/-- `Payload._calculate_payload_hash`: hex SHA-256 of the serialized
field subset. -/
def Payload.calculate_payload_hash (p : Payload) : String :=
  SHA256.sha256hex p.hashInput

/-- `Payload.update_payload_hash`. -/
def Payload.update_payload_hash (p : Payload) : Payload :=
  { p with payload_hash := p.calculate_payload_hash }

/-- The string whose Python hash `Payload.__hash__` returns: the stored
`payload_hash` when truthy (non-empty), else the recomputed content
hash. -/
def Payload.effHash (p : Payload) : String :=
  if p.payload_hash = "" then p.calculate_payload_hash else p.payload_hash

/-- `Payload.__eq__`: equality of the two `__hash__` values, modelled as
equality of the hashed strings. -/
def Payload.pyEq (p q : Payload) : Bool :=
  p.effHash == q.effHash

end GenesisSeed

namespace GenesisSeed

/-- Keyword arguments of a `machines.update(...)` call (`PUT` on the
machine resource); `image` is doubly optional because the call may set
the field to `None` explicitly. -/
structure MUpd where
  status : Option String := none
  description : Option String := none
  cores : Option Nat := none
  ram : Option Nat := none
  boot : Option String := none
  image : Option (Option String) := none
  deriving DecidableEq

/-- Keyword arguments of a `nodes.update(...)` call. -/
structure NUpd where
  status : Option String := none
  description : Option String := none
  deriving DecidableEq

/-- The observable side effects of one agent iteration, in program
order: control-plane mutations, block-device writes, the flush, the
payload-file write (`CoreAgent.PAYLOAD_PATH`, a direct
`open(path, "w")` + `json.dump`, with no temporary file and no rename),
agent registration, and the reboot marker. -/
inductive Eff where
  | machineUpdate (uuid : String) (u : MUpd)
  | nodeUpdate (uuid : String) (u : NUpd)
  | ifaceCreate (i : Interface)
  | ifaceDelete (i : Interface)
  | ifaceUpdate (i : Interface)
  | deviceWrite (path : String) (bytes : Nat)
  | flushDisk (path : String)
  | payloadFileWrite (p : Payload)
  | agentCreate
  | registerPayload (p : Payload)
  | rebootMark
  deriving DecidableEq

/-- State shared by both chunk handlers (`BaseChunkHandler.__init__`):
input bytes consumed, output bytes produced, and the declared
Content-Length. -/
structure BaseChunkState where
  in_bytes : Nat := 0
  out_bytes : Nat := 0
  content_length : Nat
  deriving DecidableEq

/-- The zlib incremental decompressor behind `GZChunkHandler`, modelled
by its interface contract: `memberLen` is the byte length of the
complete gzip stream (header, deflate data and the 8-byte trailer), and
`totalOut n` the cumulative decompressed output after the first `n`
input bytes; the `eof` flag is set exactly when the whole member has
been consumed, so an input truncated anywhere short of `memberLen` —
in particular inside the trailer — leaves `eof` unset. -/
structure GzDecomp where
  memberLen : Nat
  totalOut : Nat → Nat

/-- Runtime state of `GZChunkHandler`: the shared counters, the
decompressor, and how many input bytes it has consumed. -/
structure GzState where
  base : BaseChunkState
  decomp : GzDecomp
  consumed : Nat := 0

/-- Decompressed output available after consuming `n` input bytes. -/
def GzDecomp.outAt (d : GzDecomp) (n : Nat) : Nat :=
  d.totalOut (min n d.memberLen)

/-- The decompressor's `eof` flag. -/
def GzState.eof (st : GzState) : Bool :=
  st.decomp.memberLen ≤ st.consumed

/-- A chunk handler as selected by `stream_to_file`: `PlainChunkHandler`
for an uncompressed response, `GZChunkHandler` for a gzip-framed one. -/
inductive Chunker where
  | plain (st : BaseChunkState)
  | gz (st : GzState)

/-- Decompressed bytes drained and written for a chunk of `n` input
bytes arriving at state `st`. -/
def gzWritten (st : GzState) (n : Nat) : Nat :=
  st.decomp.outAt (st.consumed + n) - st.decomp.outAt st.consumed

/-- `GZChunkHandler.handle_chunk` on a chunk of `n` bytes: count the
input, feed it to the decompressor, drain and write all available
output. -/
def gzStep (st : GzState) (n : Nat) : GzState :=
  let base2 :=
    { st.base with in_bytes := st.base.in_bytes + n, out_bytes := st.base.out_bytes + gzWritten st n }
  { base := base2, decomp := st.decomp, consumed := st.consumed + n }

/-- One `handle_chunk` call on a chunk of `n` bytes; returns the updated
handler and the number of bytes written to the destination.
`PlainChunkHandler.handle_chunk` writes the chunk through and counts it
as both input and output. -/
def Chunker.handle_chunk : Chunker → Nat → Chunker × Nat
  | .plain st, n =>
      (.plain { st with in_bytes := st.in_bytes + n, out_bytes := st.out_bytes + n }, n)
  | .gz st, n => (.gz (gzStep st n), gzWritten st n)

/-- The completion check `is_clean`, run after the response is
exhausted.  `BaseChunkHandler.is_clean` intends to raise
`DownloadMismatchError` when the input byte count differs from the
declared Content-Length, but builds it with `got=self.written` — an
attribute no handler defines — so the path actually raises
`AttributeError` (the error constructor is never reached).
`GZChunkHandler.is_clean` first raises `DownloadDecompressError` when
the decompressor has not reached a clean end of stream, then delegates
to the base check. -/
def Chunker.is_clean : Chunker → Except PyErr Unit
  | .plain st =>
      if st.content_length = st.in_bytes then .ok () else .error .attributeError
  | .gz st =>
      if ¬ st.eof then .error .downloadDecompress
      else if st.base.content_length = st.base.in_bytes then .ok ()
      else .error .attributeError

/-- The HTTP response backing one `stream_to_file` call: the declared
Content-Length, whether the body is gzip-framed (`Content-Encoding:
gzip` or a `.gz` source name) with the decompressor for it, and the
sizes of the successive non-empty chunks `response.read(chunk_size)`
yields before returning the empty chunk. -/
structure StreamEnv where
  contentLength : Nat
  gz : Option GzDecomp := none
  chunkSizes : List Nat

/-- The download loop of `stream_to_file`: read a chunk, count it, hand
it to the chunk handler (which writes to the destination), stop on the
empty chunk, otherwise invoke the progress callback when one was given.
The callback is applied to four positional arguments
`(content_length, read, written, chunk)`; `cbParams` is the parameter
count of the callback passed in, and a mismatch is a Python
`TypeError` at the call site.  Returns the device-write trace and, on
success, the final handler with the `read` and `written` totals. -/
def runStream (path : String) : List Nat → Chunker → Nat → Nat → Option Nat →
    List Eff × Except PyErr (Chunker × Nat × Nat)
  | [], ch, read, written, _ =>
      let hc := ch.handle_chunk 0
      ([.deviceWrite path hc.2], .ok (hc.1, read, written + hc.2))
  | n :: rest, ch, read, written, cbParams =>
      let hc := ch.handle_chunk n
      let read2 := read + n
      let written2 := written + hc.2
      if n = 0 then ([.deviceWrite path hc.2], .ok (hc.1, read2, written2))
      else
        match cbParams with
        | none =>
            let pr := runStream path rest hc.1 read2 written2 none
            (.deviceWrite path hc.2 :: pr.1, pr.2)
        | some p =>
            if p = 4 then
              let pr := runStream path rest hc.1 read2 written2 (some p)
              (.deviceWrite path hc.2 :: pr.1, pr.2)
            else ([.deviceWrite path hc.2], .error .typeError)

/-- `stream_to_file` from `genesis_seed/common/http/base.py`: select the
chunk handler from the response framing, run the download loop, then run
the completion check.  Returns the trace of writes to
`destination_path` and, on success, the `(read, written)` totals. -/
def stream_to_file (env : StreamEnv) (path : String) (cbParams : Option Nat) :
    List Eff × Except PyErr (Nat × Nat) :=
  let chunker : Chunker :=
    match env.gz with
    | some d => .gz { base := { content_length := env.contentLength }, decomp := d }
    | none => .plain { content_length := env.contentLength }
  let pr := runStream path env.chunkSizes chunker 0 0 cbParams
  (pr.1,
    match pr.2 with
    | .error e => .error e
    | .ok (ch, read, written) =>
        match ch.is_clean with
        | .error e => .error e
        | .ok _ => .ok (read, written))

/-- A partition as `mount_root_partition` sees it: its device path plus
the behaviour of the external mount environment for it — whether
`mount <path> <mount_point>` succeeds, and which names exist under the
mount point while it is mounted. -/
structure PartDev where
  path : String
  size : Nat := 0
  mountOk : Bool := true
  present : List String := []
  deriving DecidableEq

/-- A block device (`hw_models.BlockDevice`) with its partitions. -/
structure BlockDevice where
  path : String
  size : Nat := 0
  partitions : List PartDev := []
  deriving DecidableEq

/-- Result of `mount_root_partition`: the early return when something is
already mounted at the mount point, success with the accepted
partition's path and the probe count, `FileNotFoundError` on an empty
device list, or `SupportedFSNotFound` carrying the probe count. -/
inductive MountOutcome where
  | alreadyMounted
  | mounted (path : String) (tries : Nat)
  | noDevices
  | notFound (tries : Nat)
  deriving DecidableEq

/-- The default indicator names of `mount_root_partition`. -/
def defaultIndicators : List String := ["var", "dev", "boot"]

/-- The acceptance test for one mounted partition: not
`any(not os.path.exists(join(mount_point, indicator)))`, i.e. every
indicator path exists under the mount point. -/
def acceptPartition (inds : List String) (p : PartDev) : Bool :=
  inds.all fun i => p.present.contains i

/-- The probe loop of `mount_root_partition` over the flattened
partition sequence: increment the counter, unmount whatever is at the
mount point (a no-op when nothing is mounted), try to mount the
partition (skip on failure), accept it when every indicator exists, else
continue.  Also returns the probe sequence (each partition mounted or
attempted, in order). -/
def mountProbe (inds : List String) : List PartDev → Nat → MountOutcome × List String
  | [], count => (.notFound count, [])
  | p :: rest, count =>
      if ¬ p.mountOk then
        let pr := mountProbe inds rest (count + 1)
        (pr.1, p.path :: pr.2)
      else if acceptPartition inds p then (.mounted p.path (count + 1), [p.path])
      else
        let pr := mountProbe inds rest (count + 1)
        (pr.1, p.path :: pr.2)

/-- `mount_root_partition` from `genesis_seed/common/utils.py`:
`FileNotFoundError` on no devices, an early return when the mount point
is already occupied, else the probe loop over every partition of every
device in order. -/
def mount_root_partition (devices : List BlockDevice) (alreadyMounted : Bool)
    (inds : List String) : MountOutcome × List String :=
  if devices.isEmpty then (.noDevices, [])
  else if alreadyMounted then (.alreadyMounted, [])
  else mountProbe inds (devices.flatMap (·.partitions)) 0

/-- `SeedOSAgentService._set_status`: one machine update carrying status
and description, plus a node update when a node was passed. -/
def _set_status (machine : Machine) (node : Option Node) : List Eff :=
  Eff.machineUpdate machine.uuid
      { status := some machine.status, description := some machine.description } ::
    (match node with
     | some nd =>
         [.nodeUpdate nd.uuid { status := some nd.status, description := some nd.description }]
     | none => [])

/-- `SeedOSAgentService._set_error_status`: skipped entirely (no network
call, no in-memory change) when machine and node are both already in
ERROR; otherwise sets both statuses to ERROR and both descriptions, then
writes.  Returns the updated machine and node and the call trace. -/
def _set_error_status (machine : Machine) (node : Node) (description : String) :
    Machine × Node × List Eff :=
  if machine.status ≠ "ERROR" ∨ node.status ≠ "ERROR" then
    let m2 := { machine with status := "ERROR", description := description }
    let n2 := { node with status := "ERROR", description := description }
    (m2, n2, _set_status m2 (some n2))
  else (machine, node, [])

/-- `SeedOSAgentService._set_in_progress_status`: skipped when machine
and node are both already IN_PROGRESS and the machine description
already matches; otherwise sets both statuses and descriptions and
writes. -/
def _set_in_progress_status (machine : Machine) (node : Node) (description : String) :
    Machine × Node × List Eff :=
  if machine.status ≠ "IN_PROGRESS" ∨ node.status ≠ "IN_PROGRESS" ∨
      machine.description ≠ description then
    let m2 := { machine with status := "IN_PROGRESS", description := description }
    let n2 := { node with status := "IN_PROGRESS", description := description }
    (m2, n2, _set_status m2 (some n2))
  else (machine, node, [])

/-- The interface set difference `set(xs) - set(ys)` as the list of
distinct members of `xs` not in `ys` (Python set iteration order is
unspecified; claims are stated by membership). -/
def ifaceSetDiff (xs ys : List Interface) : List Interface :=
  xs.dedup.filter fun i => ¬ ys.contains i

/-- The interface set intersection `set(xs) & set(ys)` by membership. -/
def ifaceSetInter (xs ys : List Interface) : List Interface :=
  xs.dedup.filter fun i => ys.contains i

/-- The cores/ram half of `_actualize_machine`: build the `update`
keyword dictionary from the fields that differ and issue one machine
update when it is non-empty. -/
def _actualize_machine_update (cm dm : Machine) : List Eff :=
  let coresU : Option Nat := if cm.cores ≠ dm.cores then some dm.cores else none
  let ramU : Option Nat := if cm.ram ≠ dm.ram then some dm.ram else none
  if coresU.isSome ∨ ramU.isSome then
    [.machineUpdate dm.uuid { cores := coresU, ram := ramU }]
  else []

/-- The interface half of `_actualize_machine`: nothing when the lists
compare equal; otherwise create `set(dp) - set(cp)`, then walk
`set(cp) - set(dp)` for deletion and `set(cp) & set(dp)` for update —
both of which read `iface.uuid`, an attribute `models.Interface` does
not define, so the first element of whichever of those two partitions is
non-empty raises `AttributeError` after the creates and before any
delete or update request. -/
def _actualize_iface_phase (cpIfs dpIfs : List Interface) : List Eff × Except PyErr Unit :=
  if cpIfs = dpIfs then ([], .ok ())
  else
    let createEffs := (ifaceSetDiff dpIfs cpIfs).map Eff.ifaceCreate
    if ifaceSetDiff cpIfs dpIfs ≠ [] then (createEffs, .error .attributeError)
    else if ifaceSetInter cpIfs dpIfs ≠ [] then (createEffs, .error .attributeError)
    else (createEffs, .ok ())

/-- `SeedOSAgentService._actualize_machine`: push observed cores/ram to
the control plane when they differ, then run the interface diff. -/
def _actualize_machine (cp dp : Payload) : List Eff × Except PyErr Unit :=
  match cp.machine, dp.machine with
  | some cm, some dm =>
      let ph := _actualize_iface_phase cp.interfaces dp.interfaces
      (_actualize_machine_update cm dm ++ ph.1, ph.2)
  | _, _ => ([], .error .attributeError)

/-- A disk as yielded by `system.get_disks()`. -/
structure DiskInfo where
  path : String
  size : Nat
  deriving DecidableEq

/-- Python `str.startswith`: the first `len(pre)` characters equal
`pre`. -/
def pyStartswith (s pre : String) : Bool :=
  s.toList.take pre.length == pre.toList

/-- `SeedOSAgentService._configure_core_agent`: its first statement
calls `utils.real_path(c.CORE_AGENT_CFG_PATH)`, but `common/utils.py`
defines no `real_path` and `common/constants.py` no
`CORE_AGENT_CFG_PATH`, so the call raises `AttributeError`
unconditionally. -/
def _configure_core_agent : Except PyErr Unit := .error .attributeError

/-- `SeedOSAgentService._place_node`: validate the image URL scheme,
take the first acceptable block device (ERROR status plus
`NoAcceptableBlockDevice` when there is none), transition to
IN_PROGRESS, stream the image onto the device with the local
three-parameter progress handler, flush, configure the core agent, mark
machine and node ACTIVE, and schedule the reboot. -/
def _place_node (cp : Payload) (disks : List DiskInfo) (stream : StreamEnv) :
    List Eff × Except PyErr Unit :=
  match cp.node, cp.machine with
  | some node, some machine =>
      if ¬ pyStartswith node.image "http" then
        ([], .error (.valueError ("Image is not a URL: " ++ node.image)))
      else
        match disks with
        | [] =>
            ((_set_error_status machine node "No acceptable block device found").2.2,
             .error .noAcceptableBlockDevice)
        | disk :: _ =>
            let effs1 := (_set_in_progress_status machine node "Image flashing in progress").2.2
            let st := stream_to_file stream disk.path (some 3)
            match st.2 with
            | .error e => (effs1 ++ st.1, .error e)
            | .ok _ =>
                let effs2 := effs1 ++ st.1 ++ [.flushDisk disk.path]
                match _configure_core_agent with
                | .error e => (effs2, .error e)
                | .ok _ =>
                    (effs2 ++
                      [.machineUpdate machine.uuid
                        { boot := some "hd0", status := some "ACTIVE",
                          image := some (some node.image), description := some "" },
                       .nodeUpdate node.uuid { status := some "ACTIVE", description := some "" },
                       .rebootMark], .ok ())
  | _, _ => ([], .error .attributeError)

/-- `SeedOSAgentService._clear_machine`: mark the data-plane machine
IDLE, clear its description and image, reset the boot order to network,
and push the update. -/
def _clear_machine (dp : Payload) : List Eff × Except PyErr Payload :=
  match dp.machine with
  | none => ([], .error .attributeError)
  | some dm =>
      let dm2 := { dm with status := "IDLE", description := "", boot := "network" }
      ([.machineUpdate dm2.uuid
          { boot := some "network", status := some "IDLE",
            image := some none, description := some "" }],
        .ok { dp with machine := some dm2 })

/-- `SeedOSAgentService._actualize_node`: newly assigned node →
place-node; node present on both sides → the (stub) image
actualization; no control-plane node → clear the machine. -/
def _actualize_node (cp dp : Payload) (disks : List DiskInfo) (stream : StreamEnv) :
    List Eff × Except PyErr Payload :=
  match dp.node, cp.node with
  | none, some _ =>
      let pl := _place_node cp disks stream
      (pl.1, pl.2.map fun _ => dp)
  | some _, some _ => ([], .ok dp)
  | _, none => _clear_machine dp

/-- `SeedOSAgentService._actualize_agent`: copy the control-plane
payload timestamp onto the data-plane payload. -/
def _actualize_agent (cp dp : Payload) : Payload :=
  { dp with payload_updated_at := cp.payload_updated_at }

/-- `CoreAgent.save_payload`: a direct `open(PAYLOAD_PATH, "w")` and
`json.dump` of the payload's simple view — one whole-file write, with no
temporary file and no rename. -/
def CoreAgent.save_payload (p : Payload) : List Eff :=
  [.payloadFileWrite p]

/-- The local facts `CoreAgent.collect_payload` consumes: whether the
persisted payload file exists, the payload restored from it when it
does, and the machine and interface facts observed from the system. -/
structure CollectEnv where
  fileExists : Bool
  filePayload : Payload := {}
  sysMachine : Machine
  sysIfaces : List Interface := []

/-- `CoreAgent.empty_payload`: the system machine, no node, the observed
interfaces. -/
def CoreAgent.empty_payload (env : CollectEnv) : Payload :=
  { machine := some env.sysMachine, node := none, interfaces := env.sysIfaces }

/-- `CoreAgent.collect_payload`: when the payload file does not exist,
build the empty payload, write it to the payload file (before the hash
is computed), then hash it and return it; when the file exists, restore
it, refresh the interface facts, rehash, and return it without touching
the file. -/
def CoreAgent.collect_payload (env : CollectEnv) : Payload × List Eff :=
  if ¬ env.fileExists then
    let empty := CoreAgent.empty_payload env
    (empty.update_payload_hash, [.payloadFileWrite empty])
  else
    let p := { env.filePayload with interfaces := env.sysIfaces }
    (p.update_payload_hash, [])

/-- `SeedOSAgentService._register_agent`: create the agent (a 409 means
it already exists and is swallowed), then register the data-plane
payload (which rehashes it first). -/
def _register_agent (dp : Payload) : List Eff :=
  [.agentCreate, .registerPayload dp.update_payload_hash]

/-- Everything one `_iteration` call observes from outside: the reboot
marker, the local collection environment, the control-plane response to
`get_target_payload` (`none` models `HttpNotFoundError`), the acceptable
disks, and the HTTP response for the node image. -/
structure IterEnv where
  rebooting : Bool := false
  collect : CollectEnv
  cpResp : Option Payload := none
  disks : List DiskInfo := []
  stream : StreamEnv := { contentLength := 0, chunkSizes := [] }

/-- `SeedOSAgentService._iteration`: skip while rebooting; collect the
data-plane payload; self-register on `HttpNotFoundError`; no-op when the
payloads compare equal by hash; otherwise run actualize-machine,
actualize-node and actualize-agent in order — any failure aborts the
iteration with the trace accumulated so far — and only after all three
steps persist the payload via `save_payload`. -/
def _iteration (env : IterEnv) : List Eff × Except PyErr Unit :=
  if env.rebooting then ([], .ok ())
  else
    let col := CoreAgent.collect_payload env.collect
    let dp := col.1
    let effs0 := col.2
    match env.cpResp with
    | none => (effs0 ++ _register_agent dp, .ok ())
    | some cp =>
        if cp.pyEq dp then (effs0, .ok ())
        else
          let am := _actualize_machine cp dp
          match am.2 with
          | .error e => (effs0 ++ am.1, .error e)
          | .ok _ =>
              let an := _actualize_node cp dp env.disks env.stream
              match an.2 with
              | .error e => (effs0 ++ am.1 ++ an.1, .error e)
              | .ok dp2 =>
                  let dp3 := _actualize_agent cp dp2
                  (effs0 ++ am.1 ++ an.1 ++ CoreAgent.save_payload dp3, .ok ())

end GenesisSeed

set_option maxRecDepth 10000 in
example :
    GenesisSeed.Payload.calculate_payload_hash
      { machine := some { uuid := "123e4567-e89b-12d3-a456-426614174000",
                          cores := 4, ram := 8192, status := "IDLE",
                          machine_type := "VM", boot := "network" },
        node := some { uuid := "123e4567-e89b-12d3-a456-426614174001",
                       cores := 2, ram := 4096, status := "ACTIVE",
                       image := "http://h/i.raw", node_type := "VM" } } =
      "3109427b5275d2706a1ec095ff467125d57dc7b523b2bce856c070e0da219697" := by
  decide

namespace GenesisSeed

/-- C6: the status domains the code defines.  `constants.MachineStatus`
has exactly the seven members NEW, SCHEDULED, IN_PROGRESS, STARTED,
ACTIVE, IDLE, ERROR — it does not define FLASHED — and
`constants.NodeStatus` exactly NEW, SCHEDULED, IN_PROGRESS, STARTED,
ACTIVE, ERROR; consequently the guest capability driver's FLASHED
transition (`c.MachineStatus.FLASHED.value` in `GuestCapDriver.run`)
reads a member outside the domain and raises `AttributeError` instead of
producing a status value. -/
theorem c6_status_domains :
    MachineStatus.values =
      ["NEW", "SCHEDULED", "IN_PROGRESS", "STARTED", "ACTIVE", "IDLE", "ERROR"] ∧
    NodeStatus.values =
      ["NEW", "SCHEDULED", "IN_PROGRESS", "STARTED", "ACTIVE", "ERROR"] ∧
    "FLASHED" ∉ MachineStatus.values ∧
    GuestCapDriver.flashedStatus = .error .attributeError := by
  refine ⟨rfl, rfl, by decide, by decide⟩

/-- C4: the declared transfer-integrity example, evaluated on the code.
An uncompressed transfer of 1000 declared bytes delivered in 64-byte
chunks completes with exactly 1000 bytes read and written; the same
stream truncated by one byte does not return silently — the completion
check fails — but what `BaseChunkHandler.is_clean` raises is
`AttributeError` (its `raise DownloadMismatchError(...)` evaluates the
undefined `self.written`), not the byte-count `DownloadMismatchError`
the claim names. -/
theorem c4_truncation_check :
    (stream_to_file { contentLength := 1000, chunkSizes := List.replicate 15 64 ++ [40] }
        "/dev/vda" none).2 = .ok (1000, 1000) ∧
    (stream_to_file { contentLength := 1000, chunkSizes := List.replicate 15 64 ++ [39] }
        "/dev/vda" none).2 = .error .attributeError ∧
    (stream_to_file { contentLength := 1000, chunkSizes := List.replicate 15 64 ++ [39] }
        "/dev/vda" none).2 ≠ .error (.downloadMismatch 1000 999) := by
  refine ⟨by decide, by decide, by decide⟩

/-- C7: transitions into ERROR or IN_PROGRESS perform no network call
when the target status and description already match the machine and
node, and every status write either function performs carries the
description. -/
theorem c7_status_write_skipping (m : Machine) (n : Node) (d : String) :
    (m.status = "ERROR" ∧ n.status = "ERROR" ∧ m.description = d ∧ n.description = d →
      (_set_error_status m n d).2.2 = []) ∧
    (m.status = "IN_PROGRESS" ∧ n.status = "IN_PROGRESS" ∧
        m.description = d ∧ n.description = d →
      (_set_in_progress_status m n d).2.2 = []) ∧
    (∀ uid u, Eff.machineUpdate uid u ∈ (_set_error_status m n d).2.2 →
      u.description = some d) ∧
    (∀ uid u, Eff.nodeUpdate uid u ∈ (_set_error_status m n d).2.2 →
      u.description = some d) ∧
    (∀ uid u, Eff.machineUpdate uid u ∈ (_set_in_progress_status m n d).2.2 →
      u.description = some d) ∧
    (∀ uid u, Eff.nodeUpdate uid u ∈ (_set_in_progress_status m n d).2.2 →
      u.description = some d) := by
  unfold _set_error_status _set_in_progress_status _set_status
  refine ⟨fun h => ?_, fun h => ?_, ?_, ?_, ?_, ?_⟩
  · simp [h.1, h.2.1]
  · simp [h.1, h.2.1, h.2.2.1]
  all_goals
    intro uid u hmem
    split at hmem <;> simp_all

/-- C7 witness: at a machine and node already in ERROR with the matching
description, `_set_error_status` issues no call. -/
theorem c7_witness :
    (_set_error_status
      { uuid := "m1", cores := 1, ram := 1, status := "ERROR",
        machine_type := "HW", boot := "network", description := "boom" }
      { uuid := "n1", cores := 1, ram := 1, status := "ERROR",
        image := "http://h/i.raw", node_type := "VM", description := "boom" }
      "boom").2.2 = [] :=
  (c7_status_write_skipping _ _ _).1 ⟨rfl, rfl, rfl, rfl⟩

lemma mem_ifaceSetDiff (xs ys : List Interface) (i : Interface) :
    i ∈ ifaceSetDiff xs ys ↔ i ∈ xs ∧ i ∉ ys := by
  simp [ifaceSetDiff, List.mem_filter, List.mem_dedup, List.contains]

lemma ifaceCreate_mem_phase (cpIfs dpIfs : List Interface) (hne : cpIfs ≠ dpIfs)
    (i : Interface) :
    Eff.ifaceCreate i ∈ (_actualize_iface_phase cpIfs dpIfs).1 ↔
      i ∈ dpIfs ∧ i ∉ cpIfs := by
  unfold _actualize_iface_phase
  rw [if_neg hne]
  split
  · simp [List.mem_map, mem_ifaceSetDiff]
  · split <;> simp [List.mem_map, mem_ifaceSetDiff]

lemma ifaceDelete_not_mem_phase (cpIfs dpIfs : List Interface) (i : Interface) :
    Eff.ifaceDelete i ∉ (_actualize_iface_phase cpIfs dpIfs).1 := by
  unfold _actualize_iface_phase
  split
  · simp
  · split
    · simp [List.mem_map]
    · split <;> simp [List.mem_map]

lemma ifaceUpdate_not_mem_phase (cpIfs dpIfs : List Interface) (i : Interface) :
    Eff.ifaceUpdate i ∉ (_actualize_iface_phase cpIfs dpIfs).1 := by
  unfold _actualize_iface_phase
  split
  · simp
  · split
    · simp [List.mem_map]
    · split <;> simp [List.mem_map]

lemma phase_ok_iff (cpIfs dpIfs : List Interface) (hne : cpIfs ≠ dpIfs) :
    (_actualize_iface_phase cpIfs dpIfs).2 = .ok () ↔
      ifaceSetDiff cpIfs dpIfs = [] ∧ ifaceSetInter cpIfs dpIfs = [] := by
  unfold _actualize_iface_phase
  rw [if_neg hne]
  split
  · simp_all
  · split <;> simp_all

lemma update_effs_no_iface (cm dm : Machine) (i : Interface) :
    Eff.ifaceCreate i ∉ _actualize_machine_update cm dm ∧
    Eff.ifaceDelete i ∉ _actualize_machine_update cm dm ∧
    Eff.ifaceUpdate i ∉ _actualize_machine_update cm dm := by
  unfold _actualize_machine_update
  split <;> simp

lemma actualize_machine_eq (cp dp : Payload) (cm dm : Machine)
    (hcm : cp.machine = some cm) (hdm : dp.machine = some dm) :
    _actualize_machine cp dp =
      (_actualize_machine_update cm dm ++
        (_actualize_iface_phase cp.interfaces dp.interfaces).1,
       (_actualize_iface_phase cp.interfaces dp.interfaces).2) := by
  simp [_actualize_machine, hcm, hdm]

/-- C1 (amended): for payloads carrying machines whose interface lists
differ, `_actualize_machine` sends exactly the observed-only interfaces
(`dataPlanePayload` minus `controlPlanePayload`, by structural identity)
to create; no delete and no update request is ever issued — the delete
and update loops read the non-existent `iface.uuid`, so the step
completes without error exactly when both the target-only set and the
intersection are empty, and raises `AttributeError` otherwise. -/
theorem c1_interface_diff_partitions (cp dp : Payload) (cm dm : Machine)
    (hcm : cp.machine = some cm) (hdm : dp.machine = some dm)
    (hne : cp.interfaces ≠ dp.interfaces) :
    (∀ i : Interface, Eff.ifaceCreate i ∈ (_actualize_machine cp dp).1 ↔
      i ∈ dp.interfaces ∧ i ∉ cp.interfaces) ∧
    (∀ i : Interface, Eff.ifaceDelete i ∉ (_actualize_machine cp dp).1) ∧
    (∀ i : Interface, Eff.ifaceUpdate i ∉ (_actualize_machine cp dp).1) ∧
    ((_actualize_machine cp dp).2 = .ok () ↔
      ifaceSetDiff cp.interfaces dp.interfaces = [] ∧
      ifaceSetInter cp.interfaces dp.interfaces = []) := by
  rw [actualize_machine_eq cp dp cm dm hcm hdm]
  refine ⟨fun i => ?_, fun i => ?_, fun i => ?_, ?_⟩
  · simp only [List.mem_append]
    rw [ifaceCreate_mem_phase cp.interfaces dp.interfaces hne i]
    have h := (update_effs_no_iface cm dm i).1
    simp [h]
  · simp only [List.mem_append]
    push_neg
    exact ⟨(update_effs_no_iface cm dm i).2.1,
      ifaceDelete_not_mem_phase cp.interfaces dp.interfaces i⟩
  · simp only [List.mem_append]
    push_neg
    exact ⟨(update_effs_no_iface cm dm i).2.2,
      ifaceUpdate_not_mem_phase cp.interfaces dp.interfaces i⟩
  · exact phase_ok_iff cp.interfaces dp.interfaces hne

/-- Machine used by the C1 example payloads (identical on both sides, so
the cores/ram phase issues nothing). -/
def c1m : Machine :=
  { uuid := "m1", cores := 2, ram := 2048, status := "IDLE",
    machine_type := "HW", boot := "network" }

/-- Interface A: observed only. -/
def c1A : Interface :=
  { name := "eth0", mac := "aa:aa:aa:aa:aa:01", ipv4 := some "10.0.0.1",
    mask := some "255.255.255.0", mtu := 1500 }

/-- Interface B: observed and targeted. -/
def c1B : Interface :=
  { name := "eth1", mac := "aa:aa:aa:aa:aa:02", ipv4 := some "10.0.0.2",
    mask := some "255.255.255.0", mtu := 1500 }

/-- Interface C: targeted only. -/
def c1C : Interface :=
  { name := "eth2", mac := "aa:aa:aa:aa:aa:03", ipv4 := some "10.0.0.3",
    mask := some "255.255.255.0", mtu := 1500 }

/-- Control-plane payload with target interfaces `{B, C}`. -/
def c1cp : Payload := { machine := some c1m, interfaces := [c1B, c1C] }

/-- Data-plane payload with observed interfaces `{A, B}`. -/
def c1dp : Payload := { machine := some c1m, interfaces := [c1A, c1B] }

/-- C1 counterexample: at observed `{A, B}` and target `{B, C}` the step
issues a create for exactly `{A}` — not `{C}` as the claim demands — and
no delete and no update request at all: the target-only partition is
non-empty, so reading `iface.uuid` raises `AttributeError` before any
delete request. -/
theorem c1_counterexample :
    _actualize_machine c1cp c1dp = ([.ifaceCreate c1A], .error .attributeError) ∧
    Eff.ifaceCreate c1C ∉ (_actualize_machine c1cp c1dp).1 ∧
    Eff.ifaceDelete c1A ∉ (_actualize_machine c1cp c1dp).1 ∧
    Eff.ifaceUpdate c1B ∉ (_actualize_machine c1cp c1dp).1 ∧
    c1A ≠ c1C := by
  refine ⟨by decide, by decide, by decide, by decide, by decide⟩

/-- C1 witness: the amended characterization applied to the `{A, B}` /
`{B, C}` example — `A` is in the create partition and `C` is not. -/
theorem c1_witness :
    (Eff.ifaceCreate c1A ∈ (_actualize_machine c1cp c1dp).1 ↔
      c1A ∈ c1dp.interfaces ∧ c1A ∉ c1cp.interfaces) ∧
    Eff.ifaceDelete c1C ∉ (_actualize_machine c1cp c1dp).1 :=
  ⟨(c1_interface_diff_partitions c1cp c1dp c1m c1m rfl rfl (by decide)).1 c1A,
   (c1_interface_diff_partitions c1cp c1dp c1m c1m rfl rfl (by decide)).2.1 c1C⟩

lemma runStream_no_payload_write (path : String) (sizes : List Nat) :
    ∀ ch read written cb (p : Payload),
      Eff.payloadFileWrite p ∉ (runStream path sizes ch read written cb).1 := by
  induction sizes with
  | nil => intro ch read written cb p; simp [runStream]
  | cons n rest ih =>
      intro ch read written cb p
      simp only [runStream]
      split
      · simp
      · split
        · simp [ih]
        · split
          · simp [ih]
          · simp

lemma stream_no_payload_write (env : StreamEnv) (path : String) (cb : Option Nat)
    (p : Payload) : Eff.payloadFileWrite p ∉ (stream_to_file env path cb).1 :=
  runStream_no_payload_write path env.chunkSizes _ 0 0 cb p

lemma set_status_no_payload_write (m : Machine) (n : Option Node) (p : Payload) :
    Eff.payloadFileWrite p ∉ _set_status m n := by
  cases n <;> simp [_set_status]

lemma set_error_no_payload_write (m : Machine) (n : Node) (d : String) (p : Payload) :
    Eff.payloadFileWrite p ∉ (_set_error_status m n d).2.2 := by
  unfold _set_error_status
  split <;> simp [set_status_no_payload_write]

lemma set_in_progress_no_payload_write (m : Machine) (n : Node) (d : String) (p : Payload) :
    Eff.payloadFileWrite p ∉ (_set_in_progress_status m n d).2.2 := by
  unfold _set_in_progress_status
  split <;> simp [set_status_no_payload_write]

lemma place_node_no_payload_write (cp : Payload) (disks : List DiskInfo)
    (stream : StreamEnv) (p : Payload) :
    Eff.payloadFileWrite p ∉ (_place_node cp disks stream).1 := by
  unfold _place_node
  split
  case h_2 => simp
  case h_1 node machine =>
    split
    · simp
    · split
      · simp [set_error_no_payload_write]
      · simp only [List.mem_append]
        repeat' split
        all_goals
          simp [set_in_progress_no_payload_write, stream_no_payload_write]

lemma phase_no_payload_write (cpIfs dpIfs : List Interface) (p : Payload) :
    Eff.payloadFileWrite p ∉ (_actualize_iface_phase cpIfs dpIfs).1 := by
  unfold _actualize_iface_phase
  split
  · simp
  · split
    · simp [List.mem_map]
    · split <;> simp [List.mem_map]

lemma actualize_machine_no_payload_write (cp dp : Payload) (p : Payload) :
    Eff.payloadFileWrite p ∉ (_actualize_machine cp dp).1 := by
  unfold _actualize_machine
  split
  case h_2 => simp
  case h_1 =>
    rename_i cm dm hcm hdm
    have h1 : Eff.payloadFileWrite p ∉ _actualize_machine_update cm dm := by
      unfold _actualize_machine_update
      split <;> simp
    simp [h1, phase_no_payload_write]

lemma clear_machine_no_payload_write (dp : Payload) (p : Payload) :
    Eff.payloadFileWrite p ∉ (_clear_machine dp).1 := by
  unfold _clear_machine
  split <;> simp

lemma actualize_node_no_payload_write (cp dp : Payload) (disks : List DiskInfo)
    (stream : StreamEnv) (p : Payload) :
    Eff.payloadFileWrite p ∉ (_actualize_node cp dp disks stream).1 := by
  unfold _actualize_node
  split
  · exact place_node_no_payload_write _ _ _ _
  · simp
  · exact clear_machine_no_payload_write _ _

/-- C3 (amended): when the persisted payload file already exists at the
start of an iteration, an iteration in which any convergence step
(actualize-machine, actualize-node, actualize-agent) raises performs no
write whatsoever to the payload file, leaving the previously persisted
payload byte-for-byte unchanged; `save_payload` — the only payload-file
write of a convergence iteration — runs only after all steps complete
(though as a plain whole-file write, not a temp-file-and-rename, and
`collect_payload` does write the file when it is absent). -/
theorem c3_failed_iteration_preserves_payload_file (env : IterEnv) (e : PyErr)
    (p : Payload)
    (hex : env.collect.fileExists = true)
    (herr : (_iteration env).2 = .error e) :
    Eff.payloadFileWrite p ∉ (_iteration env).1 := by
  have hcol : (CoreAgent.collect_payload env.collect).2 = [] := by
    simp [CoreAgent.collect_payload, hex]
  simp only [_iteration] at herr ⊢
  by_cases hrb : env.rebooting = true
  · rw [if_pos hrb] at herr
    simp at herr
  · rw [if_neg hrb] at herr ⊢
    rw [hcol] at herr ⊢
    cases hcp : env.cpResp with
    | none => rw [hcp] at herr; simp at herr
    | some cp =>
        rw [hcp] at herr
        simp only [] at herr ⊢
        by_cases hpy : cp.pyEq (CoreAgent.collect_payload env.collect).1 = true
        · rw [if_pos hpy] at herr
          simp at herr
        · rw [if_neg hpy] at herr ⊢
          cases hm2 : (_actualize_machine cp (CoreAgent.collect_payload env.collect).1).2 with
          | error e1 =>
              simp [actualize_machine_no_payload_write]
          | ok u =>
              cases hn2 : (_actualize_node cp (CoreAgent.collect_payload env.collect).1
                  env.disks env.stream).2 with
              | error e2 =>
                  simp [actualize_machine_no_payload_write,
                        actualize_node_no_payload_write]
              | ok dp2 =>
                  rw [hm2, hn2] at herr
                  simp at herr

/-- The machine `Machine.from_system` observes in the C2/C3 scenarios:
IDLE status, network boot, HW type, `firmware_uuid` equal to the system
uuid. -/
def sysM : Machine :=
  { uuid := "11111111-2222-3333-4444-555555555555", cores := 2, ram := 2048,
    status := "IDLE", machine_type := "HW", boot := "network",
    firmware_uuid := some "11111111-2222-3333-4444-555555555555" }

/-- Control-plane node with a non-HTTP image, used to make a convergence
step fail. -/
def c3node : Node :=
  { uuid := "n1", cores := 1, ram := 1024, status := "NEW",
    image := "ftp://img", node_type := "VM" }

/-- Control-plane payload assigning `c3node` (with a server-side payload
hash, so it compares unequal to the local payload). -/
def c3cp : Payload :=
  { machine := some sysM, node := some c3node, payload_hash := "cp-hash-1" }

/-- Local environment with no persisted payload file. -/
def c3collect : CollectEnv :=
  { fileExists := false, sysMachine := sysM, sysIfaces := [] }

/-- Iteration environment for the C3 counterexample: no persisted file,
and a target whose placement fails validation. -/
def c3env : IterEnv := { collect := c3collect, cpResp := some c3cp }

set_option maxRecDepth 40000 in
/-- C3 counterexample: starting with no persisted payload file, the
iteration writes the payload file from `collect_payload` at the very
start — a direct `open(path, "w")` write, before any convergence step —
and then a convergence step (`_place_node` validation) raises; so a
payload-file write does happen in an iteration whose convergence steps
did not complete without error, refuting both "written only after all
convergence steps complete" and "no code path writes the payload file
before convergence succeeds". -/
theorem c3_counterexample :
    (_iteration c3env).2 = .error (.valueError "Image is not a URL: ftp://img") ∧
    Eff.payloadFileWrite (CoreAgent.empty_payload c3collect) ∈ (_iteration c3env).1 := by
  exact ⟨by decide, by decide⟩

/-- Local environment of the C3 witness: the payload file exists. -/
def c3wcollect : CollectEnv :=
  { fileExists := true, filePayload := { machine := some sysM },
    sysMachine := sysM, sysIfaces := [] }

/-- Iteration environment for the C3 witness. -/
def c3wenv : IterEnv := { collect := c3wcollect, cpResp := some c3cp }

set_option maxRecDepth 40000 in
/-- C3 witness: with the payload file present and a failing placement,
the amended theorem yields that the iteration performs no payload-file
write. -/
theorem c3_witness :
    Eff.payloadFileWrite (CoreAgent.empty_payload c3wcollect) ∉ (_iteration c3wenv).1 :=
  c3_failed_iteration_preserves_payload_file c3wenv
    (.valueError "Image is not a URL: ftp://img")
    (CoreAgent.empty_payload c3wcollect) rfl (by decide)

/-- Control-plane node of the C2 scenario, with
`image="http://host/img.raw"`. -/
def c2node : Node :=
  { uuid := "66666666-7777-8888-9999-aaaaaaaaaaaa", cores := 1, ram := 1024,
    status := "NEW", image := "http://host/img.raw", node_type := "VM" }

/-- Control-plane payload of the C2 scenario. -/
def c2cp : Payload :=
  { machine := some sysM, node := some c2node, payload_hash := "cp-hash-2" }

/-- Local environment of the C2 scenario: no persisted payload. -/
def c2collect : CollectEnv :=
  { fileExists := false, sysMachine := sysM, sysIfaces := [] }

/-- The C2 scenario: no local payload, a control-plane node with an HTTP
image, one acceptable disk, and an image stream of one 100-byte chunk. -/
def c2env : IterEnv :=
  { collect := c2collect, cpResp := some c2cp,
    disks := [{ path := "/dev/vda", size := 10 }],
    stream := { contentLength := 100, chunkSizes := [100] } }

set_option maxRecDepth 40000 in
/-- C2, evaluated on the code: the iteration writes the payload file at
collection, sets machine and node to IN_PROGRESS, writes the first chunk
to the selected device, and then raises `TypeError`: `stream_to_file`
invokes the progress callback with four positional arguments
`(content_length, read, written, chunk)` while `_place_node`'s handler
accepts three `(total, written, chunk)`.  Machine and node are never set
to ACTIVE, and `save_payload` never runs, so no payload with the
target's hash is persisted. -/
theorem c2_flash_iteration_crashes_in_callback :
    _iteration c2env =
      ([.payloadFileWrite (CoreAgent.empty_payload c2collect),
        .machineUpdate sysM.uuid
          { status := some "IN_PROGRESS",
            description := some "Image flashing in progress" },
        .nodeUpdate c2node.uuid
          { status := some "IN_PROGRESS",
            description := some "Image flashing in progress" },
        .deviceWrite "/dev/vda" 100], .error .typeError) := by
  decide

/-- C10 (amended): the computed payload content hash depends only on
machine presence and `machine.image`, on the payload's node value in its
entirety (the code serializes `str(payload.node)` — the full dataclass
repr — inside the machine entry, and `cores`/`ram`/`node_type`/`image`
in the node entry; it never reads `machine.node`), and on each
interface's `(mac, str(ipv4), str(mask))`: payloads agreeing on those
projections hash identically. -/
theorem c10_hash_dependencies (p q : Payload)
    (hm : p.machine.map (·.image) = q.machine.map (·.image))
    (hn : p.node = q.node)
    (hi : p.interfaces.map Interface.hashProj = q.interfaces.map Interface.hashProj) :
    p.calculate_payload_hash = q.calculate_payload_hash := by
  unfold Payload.calculate_payload_hash Payload.hashInput
  rw [hm, hn, hi]

/-- C10 witness: two payloads whose machines differ in cores, ram and
status and whose single interfaces differ in name and mtu (structurally
unequal interfaces) still hash identically. -/
theorem c10_witness :
    Payload.calculate_payload_hash
      { machine := some { uuid := "m1", cores := 4, ram := 1024, status := "IDLE",
                          machine_type := "HW", boot := "network", image := some "img" },
        interfaces := [{ name := "eth0", mac := "aa:bb", ipv4 := some "10.0.0.1",
                         mask := some "255.255.255.0", mtu := 1500 }] } =
    Payload.calculate_payload_hash
      { machine := some { uuid := "m1", cores := 8, ram := 4096, status := "ERROR",
                          machine_type := "HW", boot := "network", image := some "img" },
        interfaces := [{ name := "eth9", mac := "aa:bb", ipv4 := some "10.0.0.1",
                         mask := some "255.255.255.0", mtu := 9000 }] } :=
  c10_hash_dependencies _ _ rfl rfl rfl

/-- Node used by the C10 counterexample, parameterized by status. -/
def c10node (s : String) : Node :=
  { uuid := "123e4567-e89b-12d3-a456-426614174001", cores := 2, ram := 4096,
    status := s, image := "http://h/i.raw", node_type := "VM" }

/-- Machine used by the C10 counterexample (identical in both payloads,
node reference included). -/
def c10m : Machine :=
  { uuid := "m1", cores := 2, ram := 2048, status := "IDLE",
    machine_type := "HW", boot := "network",
    node := some "123e4567-e89b-12d3-a456-426614174001" }

/-- Payload whose node is ACTIVE. -/
def c10p : Payload := { machine := some c10m, node := some (c10node "ACTIVE") }

/-- Payload identical to `c10p` except for the node's status. -/
def c10q : Payload := { machine := some c10m, node := some (c10node "ERROR") }

set_option maxRecDepth 40000 in
/-- C10 counterexample: two payloads that agree on every field the claim
lists as a hash input — `machine.image`, the machine's node reference,
`node.cores`, `node.ram`, `node.node_type`, `node.image`, and every
interface's mac/ipv4/mask — but differ in `node.status`, produce
different content hashes: the code hashes the full `str(payload.node)`
repr, which includes the status. -/
theorem c10_counterexample :
    (c10p.machine.map (·.image) = c10q.machine.map (·.image)) ∧
    (c10p.machine.map (·.node) = c10q.machine.map (·.node)) ∧
    (c10p.node.map Node.cores = c10q.node.map Node.cores) ∧
    (c10p.node.map Node.ram = c10q.node.map Node.ram) ∧
    (c10p.node.map Node.node_type = c10q.node.map Node.node_type) ∧
    (c10p.node.map Node.image = c10q.node.map Node.image) ∧
    (c10p.interfaces.map Interface.hashProj = c10q.interfaces.map Interface.hashProj) ∧
    c10p.calculate_payload_hash ≠ c10q.calculate_payload_hash := by
  refine ⟨rfl, rfl, rfl, rfl, rfl, rfl, rfl, ?_⟩
  decide

lemma runStream_gz_consumed (path : String) (sizes : List Nat) :
    ∀ (st : GzState) (read written : Nat), (∀ n ∈ sizes, n ≠ 0) →
    ∃ (st2 : GzState) (r2 w2 : Nat),
      (runStream path sizes (.gz st) read written none).2 = .ok (.gz st2, r2, w2) ∧
      st2.consumed = st.consumed + sizes.sum ∧
      st2.decomp.memberLen = st.decomp.memberLen ∧
      st2.base.content_length = st.base.content_length := by
  induction sizes with
  | nil =>
      intro st read written _
      refine ⟨gzStep st 0, read, written + gzWritten st 0, ?_, by simp [gzStep], rfl, rfl⟩
      simp [runStream, Chunker.handle_chunk]
  | cons n rest ih =>
      intro st read written hpos
      have hn : n ≠ 0 := hpos n (by simp)
      obtain ⟨st2, r2, w2, heq, hcons, hmem, hclen⟩ :=
        ih (gzStep st n) (read + n) (written + gzWritten st n)
          (fun m hm => hpos m (by simp [hm]))
      refine ⟨st2, r2, w2, ?_, ?_, ?_, ?_⟩
      · simpa [runStream, Chunker.handle_chunk, hn] using heq
      · rw [hcons]
        simp [gzStep]
        omega
      · rw [hmem]
        simp [gzStep]
      · rw [hclen]
        simp [gzStep]

/-- C5: for a gzip-framed transfer whose input is truncated short of the
complete gzip member — in particular with a truncated trailer — the
completion check raises `DownloadDecompressError`, even when the
declared Content-Length equals the bytes actually received, so the
byte counts are internally consistent. -/
theorem c5_gz_truncated_trailer (d : GzDecomp) (sizes : List Nat) (cl : Nat)
    (path : String)
    (hpos : ∀ n ∈ sizes, n ≠ 0)
    (htrunc : sizes.sum < d.memberLen)
    (_hcl : cl = sizes.sum) :
    (stream_to_file { contentLength := cl, gz := some d, chunkSizes := sizes }
        path none).2 = .error .downloadDecompress := by
  obtain ⟨st2, r2, w2, heq, hcons, hmem, hclen⟩ :=
    runStream_gz_consumed path sizes
      { base := { content_length := cl }, decomp := d } 0 0 hpos
  have heof : st2.eof = false := by
    simp only [GzState.eof, hcons, hmem]
    simp [Nat.not_le.mpr htrunc]
  unfold stream_to_file
  simp only []
  rw [heq]
  simp [Chunker.is_clean, heof]

/-- C5 witness: a 20-byte gzip member delivered as 19 bytes (the trailer
cut short) with a declared Content-Length of 19 raises the
decompression integrity error. -/
theorem c5_witness :
    (stream_to_file
      { contentLength := 19,
        gz := some { memberLen := 20, totalOut := fun n => n },
        chunkSizes := [10, 9] } "/dev/vda" none).2 = .error .downloadDecompress :=
  c5_gz_truncated_trailer { memberLen := 20, totalOut := fun n => n } [10, 9] 19
    "/dev/vda" (by decide) (by decide) (by decide)

/-- C8: the two declared placement failure modes.  A node image without
the accepted `http` transfer scheme raises the `ValueError` with an
empty effect trace — no status write, no device selection, no byte
written to any block device.  An empty acceptable-disk list ends the
iteration with `NoAcceptableBlockDevice` after the ERROR transition:
machine and node are put into ERROR, and — whenever they were not both
in ERROR already — the status write carrying the description is
issued. -/
theorem c8_placement_failure_modes (cp : Payload) (nd : Node) (m : Machine)
    (disks : List DiskInfo) (stream : StreamEnv)
    (hnd : cp.node = some nd) (hm : cp.machine = some m) :
    (¬ pyStartswith nd.image "http" →
      _place_node cp disks stream =
        ([], .error (.valueError ("Image is not a URL: " ++ nd.image)))) ∧
    (pyStartswith nd.image "http" → disks = [] →
      (_place_node cp disks stream).2 = .error .noAcceptableBlockDevice ∧
      (_place_node cp disks stream).1 =
        (_set_error_status m nd "No acceptable block device found").2.2 ∧
      (_set_error_status m nd "No acceptable block device found").1.status = "ERROR" ∧
      (_set_error_status m nd "No acceptable block device found").2.1.status = "ERROR" ∧
      (m.status ≠ "ERROR" ∨ nd.status ≠ "ERROR" →
        (_place_node cp disks stream).1 =
          [.machineUpdate m.uuid
            { status := some "ERROR",
              description := some "No acceptable block device found" },
           .nodeUpdate nd.uuid
            { status := some "ERROR",
              description := some "No acceptable block device found" }])) := by
  constructor
  · intro h
    simp [_place_node, hnd, hm, h]
  · intro h hd
    subst hd
    refine ⟨by simp [_place_node, hnd, hm, h], by simp [_place_node, hnd, hm, h], ?_, ?_, ?_⟩
    · unfold _set_error_status
      split <;> simp_all
    · unfold _set_error_status
      split <;> simp_all
    · intro hcond
      simp [_place_node, hnd, hm, h, _set_error_status, hcond, _set_status]

/-- C8 witness: a node whose image is `ftp://img` fails validation with
an empty trace before any destructive action. -/
theorem c8_witness :
    _place_node
      { machine := some { uuid := "m1", cores := 1, ram := 1, status := "IDLE",
                          machine_type := "HW", boot := "network" },
        node := some { uuid := "n1", cores := 1, ram := 1, status := "NEW",
                       image := "ftp://img", node_type := "VM" } }
      [] { contentLength := 0, chunkSizes := [] } =
      ([], .error (.valueError "Image is not a URL: ftp://img")) :=
  (c8_placement_failure_modes
    { machine := some { uuid := "m1", cores := 1, ram := 1, status := "IDLE",
                        machine_type := "HW", boot := "network" },
      node := some { uuid := "n1", cores := 1, ram := 1, status := "NEW",
                     image := "ftp://img", node_type := "VM" } }
    { uuid := "n1", cores := 1, ram := 1, status := "NEW",
      image := "ftp://img", node_type := "VM" }
    { uuid := "m1", cores := 1, ram := 1, status := "IDLE",
      machine_type := "HW", boot := "network" }
    [] { contentLength := 0, chunkSizes := [] } rfl rfl).1 (by decide)

/-- C9: root-partition probing.  For one candidate device with three
partitions that all mount, if the first lacks an indicator and the
second has all of them, the probe mounts the second after exactly two
attempts (probing partitions one and two only); if none qualifies, it
fails with the not-found error reporting exactly three attempts, having
probed all three in order. -/
theorem c9_mount_root_partition (d : BlockDevice) (p1 p2 p3 : PartDev)
    (hparts : d.partitions = [p1, p2, p3])
    (hm1 : p1.mountOk = true) (hm2 : p2.mountOk = true) (hm3 : p3.mountOk = true) :
    (acceptPartition defaultIndicators p1 = false →
     acceptPartition defaultIndicators p2 = true →
      mount_root_partition [d] false defaultIndicators =
        (.mounted p2.path 2, [p1.path, p2.path])) ∧
    (acceptPartition defaultIndicators p1 = false →
     acceptPartition defaultIndicators p2 = false →
     acceptPartition defaultIndicators p3 = false →
      mount_root_partition [d] false defaultIndicators =
        (.notFound 3, [p1.path, p2.path, p3.path])) := by
  constructor
  · intro h1 h2
    simp [mount_root_partition, hparts, mountProbe, hm1, hm2, hm3, h1, h2]
  · intro h1 h2 h3
    simp [mount_root_partition, hparts, mountProbe, hm1, hm2, hm3, h1, h2, h3]

/-- C9 witness: three concrete partitions, only the second carrying all
of `var`, `dev`, `boot`; the probe mounts it in two tries. -/
theorem c9_witness :
    mount_root_partition
      [{ path := "/dev/sda",
         partitions := [{ path := "/dev/sda1", present := ["var"] },
                        { path := "/dev/sda2", present := ["var", "dev", "boot"] },
                        { path := "/dev/sda3" }] }]
      false defaultIndicators =
      (.mounted "/dev/sda2" 2, ["/dev/sda1", "/dev/sda2"]) :=
  (c9_mount_root_partition _ _ _ _ rfl rfl rfl rfl).1 (by decide) (by decide)

end GenesisSeed
